import Mathlib

/-!
Shallow embedding of `src/offline_chatbot_programs_modern_ui.py` (class
`ProgramsModernUI` and the module-level seed resolver), covering the
welcome-seeding coordination protocol: seed resolution, the pending/streaming
flags, overlay-dismissal scheduling, the one-shot firing check, and the
worker's streaming/error behaviour.

Modelling conventions:
- Tk/UI side effects are recorded in an explicit `SeedState`:
  `transcript` records `_append(text, tag)` calls in order, `dialogs` records
  `messagebox.showerror(title, detail)` calls, `log` records `logger` calls,
  `dispatched` counts worker threads started, `sendEnabled` is the state of
  `send_btn`, `overlayVisible` is whether the frontpage overlay widget is
  currently placed (`winfo_manager() != ""`).
- `self.after(delay, cb)` is modelled by returning the scheduled delay
  (`Option Nat` from `hide_frontpage`, the `recheck` action from
  `try_fire_welcome_seed`); the `Timed` wrapper turns those into absolute
  times for the timing scenario.
- Python truthiness of an optional string (`if x:`) is `strTruthy`.
- In the source, `_start_seeding` (lines 444-457) and `_seed_worker`
  (lines 459-478) are indented one level too deep: they are local functions
  of the body of `_skin_legacy_chat_widgets` (def at line 347), not methods
  of the class.  They are embedded here as standalone functions taking the
  state, exactly as their bodies read; the method-name lists below record
  where each `def` actually sits in the source.
-/

/-- Python truthiness of an `Optional[str]`: `None` and `""` are falsy. -/
def strTruthy : Option String → Bool
  | none => false
  | some s => !s.isEmpty

/-- Drop leading and trailing whitespace from a character list. -/
def stripChars (l : List Char) : List Char :=
  ((l.dropWhile Char.isWhitespace).reverse.dropWhile Char.isWhitespace).reverse

/-- Python `str.strip()` with no argument: remove leading and trailing
whitespace. Implemented structurally on the string's character list so that
concrete instances reduce inside `decide`/`rfl` (`String.trim` is defined by
well-founded recursion and does not). -/
def pyStrip (s : String) : String := ⟨stripChars s.data⟩

/-- The seeding-relevant instance state of a `ProgramsModernUI` object plus
the observable UI effects (transcript appends, error dialogs, logger output,
worker-thread dispatches). `attrError` records that an `AttributeError`
escaped a callback (Tk reports callback exceptions without killing the
process). -/
structure SeedState where
  seed_text : String
  seed_delay_ms : Int
  show_seed : Bool
  pending : Bool
  streaming : Bool
  overlayVisible : Bool
  sendEnabled : Bool
  transcript : List (String × String)
  dialogs : List (String × String)
  log : List String
  dispatched : Nat
  attrError : Bool
deriving Repr, DecidableEq

/-- The `seed_delay_ms` argument of `__init__` as seen by `int(...)`:
either it converts to an integer value, or `int(...)` raises. -/
inductive DelayArg
  | int (n : Int)
  | bad
deriving Repr, DecidableEq

/-- Embeds `ProgramsModernUI.__init__` (source lines 32-65), seeding-relevant
part: `_seed_text = (seed_text or "").strip()`; `_seed_delay_ms = max(0,
int(seed_delay_ms))` with fallback `250` when `int(...)` raises;
announcement lines appended to the transcript; `_pending_welcome_seed` is
set (to `True`) only when the stripped seed text is non-empty, so reading it
with `getattr(self, "_pending_welcome_seed", False)` yields `False`
otherwise. The frontpage overlay has just been built and placed, no stream
is running, and the send button is enabled. -/
def modernUI_init (seed_text : Option String) (show_seed : Bool)
    (seed_delay_ms : DelayArg) : SeedState :=
  let st := pyStrip (seed_text.getD "")
  let delay : Int :=
    match seed_delay_ms with
    | .int n => max 0 n
    | .bad => 250
  let announce : List (String × String) :=
    if st.isEmpty then
      [("— Tip: launch with --seed-prompt \"...\" or set env CHATBOT_SEED_PROMPT to auto-generate a welcome message. —\n", "sys")]
    else if show_seed then
      [("— Welcome seeding enabled (showing configured seed): —\n", "sys"),
       (st ++ "\n", "sys")]
    else
      [("— Welcome seeding enabled. —\n", "sys")]
  { seed_text := st
    seed_delay_ms := delay
    show_seed := show_seed
    pending := !st.isEmpty
    streaming := false
    overlayVisible := true
    sendEnabled := true
    transcript := announce
    dialogs := []
    log := []
    dispatched := 0
    attrError := false }

/-- Embeds `_hide_frontpage` (source lines 298-316): `super()._hide_frontpage()`
removes the overlay (modelled from the spec: the base-class hook "hide the
launcher" unmaps the frontpage widget); then, in the `finally` block, if
`_seed_text` is truthy, `_pending_welcome_seed = True` and
`self.after(max(0, int(self._seed_delay_ms)), self._try_fire_welcome_seed)`
schedules the first readiness check; the returned `Option Nat` is the
scheduled delay. -/
def hide_frontpage (s : SeedState) : SeedState × Option Nat :=
  let s1 := { s with overlayVisible := false }
  if s1.seed_text.isEmpty then (s1, none)
  else ({ s1 with pending := true }, some (max 0 s1.seed_delay_ms).toNat)

/-- What one invocation of `_try_fire_welcome_seed` does besides updating the
state: return at the top guard, schedule a recheck via `self.after(delay, ...)`,
or clear `pending` and invoke `self._start_seeding()`. -/
inductive TryFireAction
  | noop
  | recheck (delay : Nat)
  | fire
deriving Repr, DecidableEq

/-- Embeds `_try_fire_welcome_seed` (source lines 318-343): return if
`_seed_text` is falsy or `_pending_welcome_seed` is falsy; if the overlay is
still placed or `streaming` is truthy, `self.after(300, ...)` and return;
otherwise set `_pending_welcome_seed = False` and call
`self._start_seeding()`. That attribute lookup fails: `_start_seeding` is a
local function of `_skin_legacy_chat_widgets` (source line 444, one indent
level inside the method body), not a method of `ProgramsModernUI`, and
(modelled from the spec, section 6) the external base class
`ProgramsFrontpageUI` exposes only launcher hooks and no seeding entry
point; so the call raises `AttributeError` after `pending` was already
cleared, recorded as `attrError`. -/
def try_fire_welcome_seed (s : SeedState) : SeedState × TryFireAction :=
  if s.seed_text.isEmpty || !s.pending then (s, .noop)
  else if s.overlayVisible || s.streaming then (s, .recheck 300)
  else ({ s with pending := false, attrError := true }, .fire)

/-- Embeds the body of `_start_seeding` (source lines 444-457) as written:
return if `streaming` is truthy or `_seed_text` falsy; else, inside
`try: ... except Exception: pass`, append `"Bot: "` with tag `"bot"`, set
`streaming = True`, disable `send_btn`, and start the worker thread.
`threadStartFails` models `threading.Thread(...).start()` raising; the
surrounding bare `except: pass` swallows it with no logging and no cleanup. -/
def start_seeding (threadStartFails : Bool) (s : SeedState) : SeedState :=
  if s.streaming || s.seed_text.isEmpty then s
  else
    let s1 := { s with
      transcript := s.transcript ++ [("Bot: ", "bot")]
      streaming := true
      sendEnabled := false }
    if threadStartFails then s1 else { s1 with dispatched := s1.dispatched + 1 }

/-- Embeds the body of `_seed_worker` (source lines 459-478) as written.
`respond_stream text = (toks, fail)` models
`self.backend.respond_stream(text, on_token=...)`: the tokens delivered to
`on_token` in order (each marshalled via `self.after(0, self._append, tok,
"bot")`), and `some e` when the call raises after those tokens. On an
exception the `except` branch queues `err` (append the error notice with tag
`"sys"`, show the `"Welcome Error"` dialog); the `finally` branch then
queues `done` (append `"\n"` with tag `"bot"`, set `streaming = False`,
re-enable `send_btn`). `after(0, ...)` callbacks run in FIFO order, so the
notice precedes the trailing newline. -/
def seed_worker (respond_stream : String → List String × Option String)
    (text : String) (s : SeedState) : SeedState :=
  let r := respond_stream text
  let s1 := { s with transcript := s.transcript ++ r.1.map (fun t => (t, "bot")) }
  let s2 :=
    match r.2 with
    | none => s1
    | some e =>
        { s1 with
          transcript := s1.transcript ++ [("\n[Error: failed to generate welcome message]\n", "sys")]
          dialogs := s1.dialogs ++ [("Welcome Error", e)] }
  { s2 with
    transcript := s2.transcript ++ [("\n", "bot")]
    streaming := false
    sendEnabled := true }

/-- The `def`s written at class-body indentation (column 4) in
`class ProgramsModernUI` — the names that actually become methods of the
class (source lines 32, 75, 144, 243, 272, 287, 298, 318, 347). -/
def modernUIClassMethods : List String :=
  ["__init__", "_apply_modern_theme", "_build_frontpage",
   "_refresh_frontpage_list", "_get_selected_program_name",
   "_run_selected_program", "_hide_frontpage", "_try_fire_welcome_seed",
   "_skin_legacy_chat_widgets"]

/-- The `def`s written inside the body of `_skin_legacy_chat_widgets`
(column 8): `walk` (line 355), `_start_seeding` (line 444) and
`_seed_worker` (line 459). Local functions, never called in that body. -/
def skinLegacyChatWidgetsLocalDefs : List String :=
  ["walk", "_start_seeding", "_seed_worker"]

/-- Modelled from the spec: the overridable hooks the external base class
`ProgramsFrontpageUI` (module `offline_chatbot_programs_frontpage_preserved`,
not under `src/`) exposes, per spec section 6 — build the launcher surface,
refresh the launcher's program list, hide the launcher, run a program by
name. Seeding is added only by this module, so the base defines no
`_start_seeding`. -/
def frontpageBaseHooks : List String :=
  ["_build_frontpage", "_refresh_frontpage_list", "_hide_frontpage",
   "_run_program_by_name"]

/-- The UI-thread events that drive the scheduler state machine: an
invocation of `_hide_frontpage` (program launched / overlay dismissed) or a
scheduled `_try_fire_welcome_seed` callback. -/
inductive Ev
  | hide
  | tryFire
deriving Repr, DecidableEq

/-- State part of one event. -/
def step : Ev → SeedState → SeedState
  | .hide, s => (hide_frontpage s).1
  | .tryFire, s => (try_fire_welcome_seed s).1

/-- Run a sequence of UI-thread events. -/
def run (evs : List Ev) (s : SeedState) : SeedState :=
  evs.foldl (fun s e => step e s) s

/-- A wall-clock wrapper for the `self.after` calls: `timers` holds the
absolute times at which a `_try_fire_welcome_seed` callback is due. -/
structure Timed where
  now : Nat
  st : SeedState
  timers : List Nat
deriving Repr, DecidableEq

/-- `_hide_frontpage` invoked at wall-clock time `t`: the returned delay
becomes an absolute timer at `t + delay`. -/
def dismissAt (t : Nat) (a : Timed) : Timed :=
  let r := hide_frontpage a.st
  { now := t
    st := r.1
    timers := a.timers ++ (match r.2 with | some d => [t + d] | none => []) }

/-- A due `_try_fire_welcome_seed` timer runs at wall-clock time `t`; a
`recheck` action schedules a new timer at `t + delay`. -/
def runTimerAt (t : Nat) (a : Timed) : Timed :=
  if t ∈ a.timers then
    let r := try_fire_welcome_seed a.st
    { now := t
      st := r.1
      timers := a.timers.erase t ++
        (match r.2 with | .recheck d => [t + d] | _ => []) }
  else { a with now := t }

/-- The CLI-argument fields `_resolve_seed_from_args_env` reads (an
`argparse` namespace; `None` when a flag was not given). -/
structure ResolverArgs where
  skip_seed : Bool
  seed_prompt : Option String
  seed_file : Option String
  seed_env : Option String
deriving Repr, DecidableEq

/-- What the filesystem does for a given seed-file path: `Path(p).exists()`
is false; or it exists but `read_text(encoding="utf-8")` raises (decode or
I/O error, message `err`); or reading succeeds with `contents`. -/
inductive FileOutcome
  | missing
  | unreadable (err : String)
  | readable (contents : String)
deriving Repr, DecidableEq

/-- `env_name = getattr(args, "seed_env", None) or "CHATBOT_SEED_PROMPT"`
(source line 505): Python `or` takes the default when `seed_env` is `None`
or empty. -/
def envVarName (args : ResolverArgs) : String :=
  if strTruthy args.seed_env then args.seed_env.getD "" else "CHATBOT_SEED_PROMPT"

/-- The file clause of the resolver (source lines 496-503): when
`args.seed_file` is truthy, return the contents if the file exists and reads
cleanly; on a raised exception, `logger.exception(...)` and fall through; a
nonexistent file falls through silently. -/
def fileClause (args : ResolverArgs) (fs : String → FileOutcome) :
    Option String × List String :=
  if strTruthy args.seed_file then
    match fs (args.seed_file.getD "") with
    | .readable c => (some c, [])
    | .missing => (none, [])
    | .unreadable e => (none, ["Failed to read seed file: " ++ e])
  else (none, [])

/-- Embeds `_resolve_seed_from_args_env` (source lines 481-509), with the
filesystem and the process environment (`os.getenv`) passed explicitly.
Returns the resolved seed and the logger output. -/
def resolve_seed_from_args_env (args : ResolverArgs) (fs : String → FileOutcome)
    (env : String → Option String) : Option String × List String :=
  if args.skip_seed then (none, [])
  else if strTruthy args.seed_prompt then (args.seed_prompt, [])
  else
    match fileClause args fs with
    | (some c, lg) => (some c, lg)
    | (none, lg) =>
        if strTruthy (env (envVarName args)) then (env (envVarName args), lg)
        else (none, lg)

/-! ## Helper states and lemmas -/

/-- A state in which the seed has already fired: seed configured, `pending`
cleared, overlay hidden, no stream running, send button enabled. -/
def postFireState : SeedState :=
  { seed_text := "Hello", seed_delay_ms := 250, show_seed := false,
    pending := false, streaming := false, overlayVisible := false,
    sendEnabled := true, transcript := [], dialogs := [], log := [],
    dispatched := 0, attrError := false }

/-- A state in which the readiness guard passes: seed configured, `pending`
set, overlay hidden, no stream running. -/
def readyState : SeedState :=
  { seed_text := "Hello", seed_delay_ms := 250, show_seed := false,
    pending := true, streaming := false, overlayVisible := false,
    sendEnabled := true, transcript := [], dialogs := [], log := [],
    dispatched := 0, attrError := false }

/-- A state in which the overlay is still visible while a seed is armed. -/
def armedVisibleState : SeedState :=
  { seed_text := "Hello", seed_delay_ms := 250, show_seed := false,
    pending := true, streaming := false, overlayVisible := true,
    sendEnabled := true, transcript := [], dialogs := [], log := [],
    dispatched := 0, attrError := false }

/-- Resolver arguments with every seed source supplied at once. -/
def c4Args : ResolverArgs :=
  { skip_seed := false, seed_prompt := some "direct", seed_file := some "seed.txt",
    seed_env := none }

/-- Resolver arguments with only a seed-file path supplied. -/
def c5Args : ResolverArgs :=
  { skip_seed := false, seed_prompt := none, seed_file := some "seed.txt",
    seed_env := none }

/-- A filesystem on which every path exists and reads cleanly. -/
def c4fs : String → FileOutcome := fun _ => .readable "from file"

/-- A filesystem on which every read raises (e.g. a UTF-8 decode error). -/
def c5fs : String → FileOutcome := fun _ => .unreadable "invalid utf-8 byte"

/-- A filesystem on which no path exists. -/
def c5fsMissing : String → FileOutcome := fun _ => .missing

/-- An environment with only the default seed variable set, to `"Hi"`. -/
def c5env : String → Option String :=
  fun n => if n = "CHATBOT_SEED_PROMPT" then some "Hi" else none

/-- A backend whose streaming call yields two tokens and then raises. -/
def failingRespond : String → List String × Option String :=
  fun _ => (["Wel", "come"], some "backend down")

/-- The C8 scenario at t=0: app constructed with seed `"Hello"`,
`--seed-delay 250`, overlay visible, nothing scheduled. -/
def c8Start : Timed :=
  { now := 0, st := modernUI_init (some "Hello") false (.int 250), timers := [] }

/-- The C8 scenario after the overlay is dismissed at t=50. -/
def c8Dismissed : Timed := dismissAt 50 c8Start

/-! ## Claims -/

/-- C1 counterexample: starting from a constructed app with seed `"Hello"`,
the trace overlay-dismissal, readiness-check (which fires and clears
`pending`), overlay-dismissal again leaves `_pending_welcome_seed = true`
once more, and the next readiness check reaches the firing branch a second
time — so `pending` does return to `true` and transitions true→false more
than once when `_hide_frontpage` runs again after the seed has fired,
contrary to the claim. -/
theorem C1_counterexample :
    (step .hide (modernUI_init (some "Hello") false (.int 250))).pending = true ∧
    (step .tryFire (step .hide (modernUI_init (some "Hello") false (.int 250)))).pending = false ∧
    (step .hide (step .tryFire (step .hide (modernUI_init (some "Hello") false (.int 250))))).pending = true ∧
    (try_fire_welcome_seed
      (step .hide (step .tryFire (step .hide (modernUI_init (some "Hello") false (.int 250)))))).2
      = .fire := by
  decide

/-- C1 (amended): once the seed has fired, further `_try_fire_welcome_seed`
invocations are no-ops (`pending` is cleared at most once per arming); but
every `_hide_frontpage` invocation with a configured seed re-arms
`pending := true`, so the true→false transition is once per overlay
dismissal, not once per application lifetime. -/
theorem C1_once_per_arming (s : SeedState) (h : s.pending = false) :
    try_fire_welcome_seed s = (s, .noop) ∧
      (s.seed_text ≠ "" → (hide_frontpage s).1.pending = true) := by
  constructor
  · simp [try_fire_welcome_seed, h]
  · intro h2
    have he : s.seed_text.isEmpty = false := by
      cases hh : s.seed_text.isEmpty
      · rfl
      · exact absurd ((String.isEmpty_iff s.seed_text).mp hh) h2
    simp [hide_frontpage, he]

/-- C1 witness: the amended statement instantiated at `postFireState`. -/
theorem C1_once_per_arming_witness :
    try_fire_welcome_seed postFireState = (postFireState, .noop) ∧
      (postFireState.seed_text ≠ "" → (hide_frontpage postFireState).1.pending = true) :=
  C1_once_per_arming postFireState (by decide)

/-- C2: whenever the overlay is reported visible or the shared streaming
flag is true, `_try_fire_welcome_seed` never reaches the firing branch
(never calls `_start_seeding`), leaves the state unchanged, and — when a
seed is configured and pending — only reschedules a 300 ms recheck. -/
theorem C2_guard_blocks_firing (s : SeedState)
    (h : s.overlayVisible = true ∨ s.streaming = true) :
    (try_fire_welcome_seed s).2 ≠ .fire ∧ (try_fire_welcome_seed s).1 = s ∧
      (s.seed_text ≠ "" → s.pending = true →
        (try_fire_welcome_seed s).2 = .recheck 300) := by
  have hg : (s.overlayVisible || s.streaming) = true := by
    rcases h with h | h <;> simp [h]
  by_cases h1 : (s.seed_text.isEmpty || !s.pending) = true
  · refine ⟨?_, ?_, ?_⟩
    · simp [try_fire_welcome_seed, h1]
    · simp [try_fire_welcome_seed, h1]
    · intro h2 h3
      rw [Bool.or_eq_true] at h1
      rcases h1 with h1 | h1
      · exact absurd ((String.isEmpty_iff s.seed_text).mp h1) h2
      · simp [h3] at h1
  · have h2 : (s.seed_text.isEmpty || !s.pending) = false := by
      simpa using h1
    refine ⟨?_, ?_, ?_⟩ <;> simp [try_fire_welcome_seed, h2, hg]

/-- C2 witness: the guarded no-fire behaviour at `armedVisibleState`. -/
theorem C2_guard_blocks_firing_witness :
    (try_fire_welcome_seed armedVisibleState).2 ≠ .fire ∧
      (try_fire_welcome_seed armedVisibleState).1 = armedVisibleState ∧
      (armedVisibleState.seed_text ≠ "" → armedVisibleState.pending = true →
        (try_fire_welcome_seed armedVisibleState).2 = .recheck 300) :=
  C2_guard_blocks_firing armedVisibleState (Or.inl rfl)

/-- C3: at the failing input (seed `"Hello"`, pending, overlay hidden, no
stream), the firing branch is reached and clears `pending`, but
`_start_seeding` is not among the methods of `ProgramsModernUI` (it is a
local `def` inside `_skin_legacy_chat_widgets`) nor a base-class hook, so
`self._start_seeding()` raises `AttributeError`: the streaming flag is never
set, the send button is never disabled, no bot-turn marker is appended, and
no worker is dispatched — contrary to the claim. -/
theorem C3_firing_hits_missing_method :
    ("_start_seeding" ∉ modernUIClassMethods ∧
      "_start_seeding" ∉ frontpageBaseHooks ∧
      "_start_seeding" ∈ skinLegacyChatWidgetsLocalDefs) ∧
    ((try_fire_welcome_seed readyState).2 = .fire ∧
      (try_fire_welcome_seed readyState).1.pending = false ∧
      (try_fire_welcome_seed readyState).1.attrError = true ∧
      (try_fire_welcome_seed readyState).1.streaming = false ∧
      (try_fire_welcome_seed readyState).1.sendEnabled = true ∧
      (try_fire_welcome_seed readyState).1.dispatched = 0 ∧
      (try_fire_welcome_seed readyState).1.transcript = readyState.transcript) := by
  decide

/-- C4: the resolver's priority chain in the claimed exact order: the skip
flag forces no seed; else non-empty direct text wins over everything; else a
readable existing file wins over the environment; else the named (or
default) environment variable is used only when non-empty; else no seed. -/
theorem C4_priority_chain (args : ResolverArgs) (fs : String → FileOutcome)
    (env : String → Option String) :
    (args.skip_seed = true → (resolve_seed_from_args_env args fs env).1 = none) ∧
    (args.skip_seed = false → strTruthy args.seed_prompt = true →
      (resolve_seed_from_args_env args fs env).1 = args.seed_prompt) ∧
    (∀ c, args.skip_seed = false → strTruthy args.seed_prompt = false →
      strTruthy args.seed_file = true →
      fs (args.seed_file.getD "") = .readable c →
      (resolve_seed_from_args_env args fs env).1 = some c) ∧
    (args.skip_seed = false → strTruthy args.seed_prompt = false →
      (strTruthy args.seed_file = false ∨ fs (args.seed_file.getD "") = .missing ∨
        ∃ e, fs (args.seed_file.getD "") = .unreadable e) →
      strTruthy (env (envVarName args)) = true →
      (resolve_seed_from_args_env args fs env).1 = env (envVarName args)) ∧
    (args.skip_seed = false → strTruthy args.seed_prompt = false →
      (strTruthy args.seed_file = false ∨ fs (args.seed_file.getD "") = .missing ∨
        ∃ e, fs (args.seed_file.getD "") = .unreadable e) →
      strTruthy (env (envVarName args)) = false →
      (resolve_seed_from_args_env args fs env).1 = none) := by
  refine ⟨?_, ?_, ?_, ?_, ?_⟩
  · intro h
    simp [resolve_seed_from_args_env, h]
  · intro h1 h2
    simp [resolve_seed_from_args_env, h1, h2]
  · intro c h1 h2 h3 h4
    simp [resolve_seed_from_args_env, h1, h2, fileClause, h3, h4]
  · intro h1 h2 h3 h4
    cases hsf : strTruthy args.seed_file with
    | false => simp [resolve_seed_from_args_env, h1, h2, fileClause, hsf, h4]
    | true =>
      rcases h3 with h3 | h3 | ⟨e, h3⟩
      · simp [hsf] at h3
      · simp [resolve_seed_from_args_env, h1, h2, fileClause, hsf, h3, h4]
      · simp [resolve_seed_from_args_env, h1, h2, fileClause, hsf, h3, h4]
  · intro h1 h2 h3 h4
    cases hsf : strTruthy args.seed_file with
    | false => simp [resolve_seed_from_args_env, h1, h2, fileClause, hsf, h4]
    | true =>
      rcases h3 with h3 | h3 | ⟨e, h3⟩
      · simp [hsf] at h3
      · simp [resolve_seed_from_args_env, h1, h2, fileClause, hsf, h3, h4]
      · simp [resolve_seed_from_args_env, h1, h2, fileClause, hsf, h3, h4]

/-- C4 witness: with all sources supplied, direct text wins. -/
theorem C4_priority_chain_witness :
    (resolve_seed_from_args_env c4Args c4fs c5env).1 = c4Args.seed_prompt :=
  (C4_priority_chain c4Args c4fs c5env).2.1 rfl rfl

/-- C5 counterexample: with a seed-file whose read raises (and likewise with
a nonexistent seed-file) while `CHATBOT_SEED_PROMPT=Hi`, the resolver
returns `"Hi"` from the environment rather than treating the seed as absent
— the claimed "returns no seed" is false in both failure cases. -/
theorem C5_counterexample :
    c5fs "seed.txt" = .unreadable "invalid utf-8 byte" ∧
    (resolve_seed_from_args_env c5Args c5fs c5env).1 = some "Hi" ∧
    ¬(resolve_seed_from_args_env c5Args c5fs c5env).1 = none ∧
    c5fsMissing "seed.txt" = .missing ∧
    (resolve_seed_from_args_env c5Args c5fsMissing c5env).1 = some "Hi" := by
  decide

/-- C5 (amended): when the provided seed file does not exist, or exists but
reading/decoding it raises (the latter logged), the file source is skipped
and resolution falls through to the named/default environment variable; the
result is no seed only when that variable is also unset or empty. -/
theorem C5_file_failure_falls_through (args : ResolverArgs)
    (fs : String → FileOutcome) (env : String → Option String)
    (hskip : args.skip_seed = false) (hp : strTruthy args.seed_prompt = false)
    (hf : strTruthy args.seed_file = true) :
    (fs (args.seed_file.getD "") = .missing →
      resolve_seed_from_args_env args fs env =
        ((if strTruthy (env (envVarName args)) then env (envVarName args) else none),
          [])) ∧
    (∀ e, fs (args.seed_file.getD "") = .unreadable e →
      resolve_seed_from_args_env args fs env =
        ((if strTruthy (env (envVarName args)) then env (envVarName args) else none),
          ["Failed to read seed file: " ++ e])) := by
  constructor
  · intro hm
    by_cases hv : strTruthy (env (envVarName args)) = true <;>
      simp [resolve_seed_from_args_env, hskip, hp, fileClause, hf, hm, hv]
  · intro e hu
    by_cases hv : strTruthy (env (envVarName args)) = true <;>
      simp [resolve_seed_from_args_env, hskip, hp, fileClause, hf, hu, hv]

/-- C5 witness: the amended behaviour at the concrete unreadable-file
configuration of the counterexample. -/
theorem C5_file_failure_falls_through_witness :
    resolve_seed_from_args_env c5Args c5fs c5env =
      ((if strTruthy (c5env (envVarName c5Args)) then c5env (envVarName c5Args) else none),
        ["Failed to read seed file: " ++ "invalid utf-8 byte"]) :=
  (C5_file_failure_falls_through c5Args c5fs c5env rfl rfl rfl).2
    "invalid utf-8 byte" rfl

/-- C6 counterexample: when `threading.Thread(...).start()` raises during
dispatch — after `streaming` was already set and the send button disabled —
the bare `except: pass` in `_start_seeding` swallows the exception: the
streaming flag stays true, the send button stays disabled, no worker runs,
and nothing is logged; the failure is not converted into the
failure-completion path, contrary to the claim. -/
theorem C6_counterexample :
    (start_seeding true postFireState).streaming = true ∧
    (start_seeding true postFireState).sendEnabled = false ∧
    (start_seeding true postFireState).dispatched = 0 ∧
    (start_seeding true postFireState).log = [] := by
  decide

/-- C6 (amended): exceptions are caught on both paths and neither crashes
the process, but neither path writes to the logger, and only a failure of
the backend call inside `_seed_worker` is converted into the
failure-completion path (streaming flag reset to false, send button
re-enabled, error notice and dialog); an exception while dispatching the
worker in `_start_seeding` is suppressed silently, leaving the streaming
flag set and the send button disabled. -/
theorem C6_failure_paths (s : SeedState)
    (respond : String → List String × Option String) (text e : String)
    (toks : List String)
    (hs : s.streaming = false) (hseed : s.seed_text.isEmpty = false)
    (hb : respond text = (toks, some e)) :
    ((start_seeding true s).streaming = true ∧
      (start_seeding true s).sendEnabled = false ∧
      (start_seeding true s).dispatched = s.dispatched ∧
      (start_seeding true s).log = s.log) ∧
    ((seed_worker respond text s).streaming = false ∧
      (seed_worker respond text s).sendEnabled = true ∧
      (seed_worker respond text s).log = s.log ∧
      (seed_worker respond text s).dialogs = s.dialogs ++ [("Welcome Error", e)]) := by
  constructor
  · simp [start_seeding, hs, hseed]
  · simp [seed_worker, hb]

/-- C6 witness: the amended failure behaviour at a concrete post-fire state
with a backend that yields two tokens and then raises. -/
theorem C6_failure_paths_witness :
    ((start_seeding true postFireState).streaming = true ∧
      (start_seeding true postFireState).sendEnabled = false ∧
      (start_seeding true postFireState).dispatched = postFireState.dispatched ∧
      (start_seeding true postFireState).log = postFireState.log) ∧
    ((seed_worker failingRespond "Hello" postFireState).streaming = false ∧
      (seed_worker failingRespond "Hello" postFireState).sendEnabled = true ∧
      (seed_worker failingRespond "Hello" postFireState).log = postFireState.log ∧
      (seed_worker failingRespond "Hello" postFireState).dialogs =
        postFireState.dialogs ++ [("Welcome Error", "backend down")]) :=
  C6_failure_paths postFireState failingRespond "Hello" "backend down"
    ["Wel", "come"] rfl rfl rfl

/-- C7: when the backend call raises after emitting some tokens, the
transcript keeps every token already appended (tagged "bot"), then receives
the error notice line (tagged "sys") and then the trailing newline; the
streaming flag ends false, the send button is re-enabled, and a
"Welcome Error" dialog with the failure detail is shown. -/
theorem C7_midstream_error (respond : String → List String × Option String)
    (text e : String) (toks : List String) (s : SeedState)
    (hb : respond text = (toks, some e)) :
    (seed_worker respond text s).transcript =
      s.transcript ++ toks.map (fun t => (t, "bot")) ++
        [("\n[Error: failed to generate welcome message]\n", "sys"), ("\n", "bot")] ∧
    (seed_worker respond text s).streaming = false ∧
    (seed_worker respond text s).sendEnabled = true ∧
    (seed_worker respond text s).dialogs = s.dialogs ++ [("Welcome Error", e)] := by
  simp [seed_worker, hb]

/-- C7 witness: the mid-stream failure behaviour at a concrete state and
backend. -/
theorem C7_midstream_error_witness :
    (seed_worker failingRespond "Hello" postFireState).transcript =
      postFireState.transcript ++ (["Wel", "come"].map (fun t => (t, "bot"))) ++
        [("\n[Error: failed to generate welcome message]\n", "sys"), ("\n", "bot")] ∧
    (seed_worker failingRespond "Hello" postFireState).streaming = false ∧
    (seed_worker failingRespond "Hello" postFireState).sendEnabled = true ∧
    (seed_worker failingRespond "Hello" postFireState).dialogs =
      postFireState.dialogs ++ [("Welcome Error", "backend down")] :=
  C7_midstream_error failingRespond "Hello" "backend down" ["Wel", "come"]
    postFireState rfl

/-- C8: with a configured seed, `_hide_frontpage` schedules the first
readiness check after the stored configurable delay (`max 0` of it); a
readiness check whose guard fails reschedules after the fixed 300 ms backoff
regardless of that configured delay; and in the concrete scenario — seed
"Hello", delay 250, overlay dismissed at t=50 — the only scheduled check is
at t=300, where the guard passes and the firing branch is reached, and no
check runs earlier. -/
theorem C8_timing (s : SeedState) (hseed : s.seed_text.isEmpty = false) :
    ((hide_frontpage s).2 = some (max 0 s.seed_delay_ms).toNat) ∧
    (s.pending = true → (s.overlayVisible = true ∨ s.streaming = true) →
      (try_fire_welcome_seed s).2 = .recheck 300) ∧
    ((modernUI_init (some "Hello") false (.int 250)).seed_delay_ms = 250 ∧
      c8Dismissed.timers = [300] ∧
      (try_fire_welcome_seed c8Dismissed.st).2 = .fire ∧
      (runTimerAt 300 c8Dismissed).st.pending = false) := by
  refine ⟨?_, ?_, ?_⟩
  · simp [hide_frontpage, hseed]
  · intro hp hg
    have hg2 : (s.overlayVisible || s.streaming) = true := by
      rcases hg with h | h <;> simp [h]
    simp [try_fire_welcome_seed, hseed, hp, hg2]
  · decide

/-- C8 witness: the scheduling behaviour at a concrete armed state with the
overlay still visible. -/
theorem C8_timing_witness :
    ((hide_frontpage armedVisibleState).2 =
      some (max 0 armedVisibleState.seed_delay_ms).toNat) ∧
    (armedVisibleState.pending = true →
      (armedVisibleState.overlayVisible = true ∨ armedVisibleState.streaming = true) →
      (try_fire_welcome_seed armedVisibleState).2 = .recheck 300) ∧
    ((modernUI_init (some "Hello") false (.int 250)).seed_delay_ms = 250 ∧
      c8Dismissed.timers = [300] ∧
      (try_fire_welcome_seed c8Dismissed.st).2 = .fire ∧
      (runTimerAt 300 c8Dismissed).st.pending = false) :=
  C8_timing armedVisibleState rfl

/-- Unfolding lemma: running a non-empty event list runs the head first. -/
theorem run_cons (e : Ev) (evs : List Ev) (s : SeedState) :
    run (e :: evs) s = run evs (step e s) := rfl

/-- Invariant: from a state with empty seed text, every event sequence
preserves empty seed text, a clear `pending` flag, and zero dispatched
workers. -/
theorem run_preserves_no_seed (evs : List Ev) :
    ∀ s : SeedState, s.seed_text.isEmpty = true → s.pending = false →
      s.dispatched = 0 →
      (run evs s).seed_text.isEmpty = true ∧ (run evs s).pending = false ∧
        (run evs s).dispatched = 0 := by
  induction evs with
  | nil => exact fun s h1 h2 h3 => ⟨h1, h2, h3⟩
  | cons e evs ih =>
    intro s h1 h2 h3
    have hstep : (step e s).seed_text.isEmpty = true ∧
        (step e s).pending = false ∧ (step e s).dispatched = 0 := by
      cases e
      · simp [step, hide_frontpage, h1, h2, h3]
      · simp [step, try_fire_welcome_seed, h1, h2, h3]
    rw [run_cons]
    exact ih (step e s) hstep.1 hstep.2.1 hstep.2.2

/-- C9: if the seed argument strips to the empty string (absent or
whitespace-only), then after construction and any sequence of overlay
dismissals and readiness-check callbacks, `_pending_welcome_seed` is still
false, the next readiness check returns at its top guard (the firing branch
is never reached), and no seeding worker was ever dispatched. -/
theorem C9_empty_seed_never_fires (seedArg : Option String) (showArg : Bool)
    (d : DelayArg) (evs : List Ev)
    (h : (pyStrip (seedArg.getD "")).isEmpty = true) :
    (run evs (modernUI_init seedArg showArg d)).pending = false ∧
    (try_fire_welcome_seed (run evs (modernUI_init seedArg showArg d))).2 = .noop ∧
    (run evs (modernUI_init seedArg showArg d)).dispatched = 0 := by
  have h0 : (modernUI_init seedArg showArg d).seed_text.isEmpty = true := by
    simp [modernUI_init, h]
  have hp0 : (modernUI_init seedArg showArg d).pending = false := by
    simp [modernUI_init, h]
  have hd0 : (modernUI_init seedArg showArg d).dispatched = 0 := by
    simp [modernUI_init]
  obtain ⟨h1, h2, h3⟩ := run_preserves_no_seed evs _ h0 hp0 hd0
  refine ⟨h2, ?_, h3⟩
  simp [try_fire_welcome_seed, h1]

/-- C9 witness: a whitespace-only seed argument, with a dismissal followed
by a readiness check. -/
theorem C9_empty_seed_never_fires_witness :
    (run [.hide, .tryFire] (modernUI_init (some "   ") false (.int 250))).pending = false ∧
    (try_fire_welcome_seed
      (run [.hide, .tryFire] (modernUI_init (some "   ") false (.int 250)))).2 = .noop ∧
    (run [.hide, .tryFire] (modernUI_init (some "   ") false (.int 250))).dispatched = 0 :=
  C9_empty_seed_never_fires (some "   ") false (.int 250) [.hide, .tryFire] (by decide)

/-- C10: the stored seed delay is always a non-negative integer: a
convertible argument is clamped below at 0 (negative values become 0), and
an argument on which `int(...)` raises falls back to the default 250; the
constructor never propagates the error. -/
theorem C10_delay_sanitized (seedArg : Option String) (showArg : Bool)
    (d : DelayArg) :
    0 ≤ (modernUI_init seedArg showArg d).seed_delay_ms ∧
    (∀ n : Int, d = .int n →
      (modernUI_init seedArg showArg d).seed_delay_ms = max 0 n) ∧
    (∀ n : Int, d = .int n → n < 0 →
      (modernUI_init seedArg showArg d).seed_delay_ms = 0) ∧
    (d = .bad → (modernUI_init seedArg showArg d).seed_delay_ms = 250) := by
  refine ⟨?_, ?_, ?_, ?_⟩
  · cases d with
    | int n => simp [modernUI_init]
    | bad => simp [modernUI_init]
  · intro n hn
    subst hn
    simp [modernUI_init]
  · intro n hn hneg
    subst hn
    simp [modernUI_init]
    omega
  · intro hb
    subst hb
    simp [modernUI_init]

/-- C10 witness: a negative delay is stored as 0 and an unconvertible delay
as 250. -/
theorem C10_delay_sanitized_witness :
    (modernUI_init (some "Hello") false (.int (-7))).seed_delay_ms = 0 ∧
    (modernUI_init (some "Hello") false .bad).seed_delay_ms = 250 :=
  ⟨(C10_delay_sanitized (some "Hello") false (.int (-7))).2.2.1 (-7) rfl (by decide),
   (C10_delay_sanitized (some "Hello") false .bad).2.2.2 rfl⟩
